import Mathlib

/-!
Verification of the LocalStack MCP server's state export/import subsystem
(`StateManager`), shallowly embedded in Lean 4.

The emulator is modelled as a record of responses: each HTTP interaction the
`StateManager` can issue is a field holding an `Except String` value (errors
model thrown transport or emulator errors).  The extractors, reconstructors
and the orchestrator are translated from the source; fallible code returns
`Except`, per-resource and per-item try/catch blocks become matches on the
corresponding `Except` field.
-/

namespace LocalstackMcp

/-- A bucket record as returned by the emulator's list-buckets call
(fields named after the wire format accessed by the source). -/
structure RawBucket where
  Name : String
  CreationDate : String
deriving Repr, DecidableEq

/-- An object record as returned by a bucket listing (the ListBucketResult
Contents entries accessed by extractS3ObjectMetadata). -/
structure RawS3Object where
  Key : String
  Size : Nat
  LastModified : String
  ETag : String
deriving Repr, DecidableEq

/-- A function record as returned by the emulator's list-functions call. -/
structure RawLambdaFn where
  FunctionName : String
  Runtime : String
  Handler : String
  Description : String
  Timeout : Nat
  MemorySize : Nat
deriving Repr, DecidableEq

/-- Object metadata kept in a snapshot: key, size, last-modified, etag. -/
structure S3ObjectMeta where
  key : String
  size : Nat
  lastModified : String
  etag : String
deriving Repr, DecidableEq

/-- Per-bucket record stored in an exported s3 ServiceState. -/
structure BucketInfo where
  name : String
  creationDate : String
  objects : List S3ObjectMeta
deriving Repr, DecidableEq

/-- Per-table record stored in an exported dynamodb ServiceState; the schema
blob returned by DescribeTable is kept opaque (a string), `none` models the
null schema written when the describe call fails. -/
structure TableInfo where
  tableName : String
  schema : Option String
  itemCount : Nat
deriving Repr, DecidableEq

/-- Function metadata kept in an exported lambda ServiceState. -/
structure LambdaFnInfo where
  functionName : String
  runtime : String
  handler : String
  description : String
  timeout : Nat
  memorySize : Nat
deriving Repr, DecidableEq

/-- The s3 ServiceState shape: a bucket list plus a stored resourceCount. -/
structure S3State where
  buckets : List BucketInfo
  resourceCount : Nat
deriving Repr, DecidableEq

/-- The dynamodb ServiceState shape. -/
structure DynamoState where
  tables : List TableInfo
  resourceCount : Nat
deriving Repr, DecidableEq

/-- The sqs ServiceState shape: queue URLs kept verbatim. -/
structure SQSState where
  queues : List String
  resourceCount : Nat
deriving Repr, DecidableEq

/-- The sns ServiceState shape: topic identifiers kept verbatim. -/
structure SNSState where
  topics : List String
  resourceCount : Nat
deriving Repr, DecidableEq

/-- The lambda ServiceState shape. -/
structure LambdaState where
  functions : List LambdaFnInfo
  resourceCount : Nat
deriving Repr, DecidableEq

/-- A per-kind ServiceState record, heterogeneous as in the source. -/
inductive ServiceState where
  | s3 (st : S3State)
  | dynamodb (st : DynamoState)
  | sqs (st : SQSState)
  | sns (st : SNSState)
  | lambda (st : LambdaState)
deriving Repr, DecidableEq

/-- The stored resourceCount field of a ServiceState. -/
def ServiceState.resourceCount : ServiceState → Nat
  | .s3 st => st.resourceCount
  | .dynamodb st => st.resourceCount
  | .sqs st => st.resourceCount
  | .sns st => st.resourceCount
  | .lambda st => st.resourceCount

/-- The length of the per-kind item list of a ServiceState. -/
def ServiceState.itemListLength : ServiceState → Nat
  | .s3 st => st.buckets.length
  | .dynamodb st => st.tables.length
  | .sqs st => st.queues.length
  | .sns st => st.topics.length
  | .lambda st => st.functions.length

/-- The buckets field when present, else the empty list (models the
JavaScript access `s3State.buckets \x7c\x7c []` on an untyped state). -/
def ServiceState.bucketsOrEmpty : ServiceState → List BucketInfo
  | .s3 st => st.buckets
  | _ => []

/-- The tables field when present, else the empty list. -/
def ServiceState.tablesOrEmpty : ServiceState → List TableInfo
  | .dynamodb st => st.tables
  | _ => []

/-- The queues field when present, else the empty list. -/
def ServiceState.queuesOrEmpty : ServiceState → List String
  | .sqs st => st.queues
  | _ => []

/-- The topics field when present, else the empty list. -/
def ServiceState.topicsOrEmpty : ServiceState → List String
  | .sns st => st.topics
  | _ => []

/-- The functions field when present, else the empty list. -/
def ServiceState.functionsOrEmpty : ServiceState → List LambdaFnInfo
  | .lambda st => st.functions
  | _ => []

/-- The emulator, abstracted as the responses it gives to each request the
StateManager issues.  An `Except.error` field models a request that throws
(transport failure or emulator error); `Option` models fields that may be
absent from the response body (optional chaining in the source). -/
structure Emulator where
  health : Except String String
  s3List : Except String (Option (List RawBucket))
  s3Objects : String → Except String (Option (List RawS3Object))
  ddbList : Except String (Option (List String))
  ddbDescribe : String → Except String String
  ddbScanCount : String → Except String Nat
  sqsList : Except String (Option (List String))
  snsList : Except String (Option (List String))
  lambdaList : Except String (Option (List RawLambdaFn))
  s3Create : String → Except String Unit
  sqsCreate : String → Except String Unit

/-- An emulator is unreachable when every request it is sent fails. -/
def Emulator.Unreachable (em : Emulator) : Prop :=
  (∃ e, em.health = .error e) ∧ (∃ e, em.s3List = .error e) ∧
  (∃ e, em.ddbList = .error e) ∧ (∃ e, em.sqsList = .error e) ∧
  (∃ e, em.snsList = .error e) ∧ (∃ e, em.lambdaList = .error e)

/-- validateLocalStackConnectivity: probe the health endpoint, converting any
failure into the fixed remediation error. -/
def validateLocalStackConnectivity (em : Emulator) : Except String Unit :=
  match em.health with
  | .ok _ => .ok ()
  | .error _ =>
    .error "LocalStack is not accessible. Ensure container is running and healthy."

/-- getLocalStackVersion: the health endpoint's version, with any failure
swallowed into the string "unknown". -/
def getLocalStackVersion (em : Emulator) : String :=
  match em.health with
  | .ok v => v
  | .error _ => "unknown"

/-- extractS3ObjectMetadata: keep key, size, last-modified and etag of every
listed object; an absent Contents field yields the empty list. -/
def extractS3ObjectMetadata (listObjectsResult : Option (List RawS3Object)) :
    List S3ObjectMeta :=
  match listObjectsResult with
  | none => []
  | some contents =>
    contents.map (fun obj => ⟨obj.Key, obj.Size, obj.LastModified, obj.ETag⟩)

/-- The per-bucket body of exportS3State's loop: when the detail flag is set,
list the bucket's objects, swallowing a failing listing into an empty
object list. -/
def exportS3Bucket (em : Emulator) (includeData : Bool) (bucket : RawBucket) :
    BucketInfo :=
  { name := bucket.Name
    creationDate := bucket.CreationDate
    objects :=
      if includeData then
        match em.s3Objects bucket.Name with
        | .ok objs => extractS3ObjectMetadata objs
        | .error _ => []
      else [] }

/-- The loop of exportS3State: push each bucket's record onto the state
while incrementing its resourceCount. -/
def exportS3Fold (em : Emulator) (includeData : Bool)
    (bucketsArray : List RawBucket) : S3State :=
  bucketsArray.foldl
    (fun st b => ⟨st.buckets ++ [exportS3Bucket em includeData b],
                  st.resourceCount + 1⟩)
    ⟨[], 0⟩

/-- exportS3State: list all buckets (note: this listing call is NOT wrapped
in a try/catch in the source, so its error propagates), then push each
bucket's record while incrementing resourceCount. -/
def exportS3State (em : Emulator) (includeData : Bool) :
    Except String ServiceState :=
  match em.s3List with
  | .error e => .error e
  | .ok none => .ok (.s3 ⟨[], 0⟩)
  | .ok (some bucketsArray) => .ok (.s3 (exportS3Fold em includeData bucketsArray))

/-- getDynamoDBItemCount: count-only scan, failures swallowed into 0. -/
def getDynamoDBItemCount (em : Emulator) (tableName : String) : Nat :=
  match em.ddbScanCount tableName with
  | .ok n => n
  | .error _ => 0

/-- getDynamoDBTableInfo: describe the table; a failing describe yields a
record with null schema and zero item count. -/
def getDynamoDBTableInfo (em : Emulator) (tableName : String)
    (includeData : Bool) : TableInfo :=
  match em.ddbDescribe tableName with
  | .ok schema =>
    { tableName := tableName
      schema := some schema
      itemCount := if includeData then getDynamoDBItemCount em tableName else 0 }
  | .error _ => { tableName := tableName, schema := none, itemCount := 0 }

/-- The loop of exportDynamoDBState: push each table's info onto the state
while incrementing its resourceCount. -/
def exportDynamoDBFold (em : Emulator) (includeData : Bool)
    (tableNames : List String) : DynamoState :=
  tableNames.foldl
    (fun st n => ⟨st.tables ++ [getDynamoDBTableInfo em n includeData],
                  st.resourceCount + 1⟩)
    ⟨[], 0⟩

/-- exportDynamoDBState: list tables inside a try/catch — a failing listing
yields the empty state; otherwise push each table's info while incrementing
resourceCount. -/
def exportDynamoDBState (em : Emulator) (includeData : Bool) :
    Except String ServiceState :=
  match em.ddbList with
  | .error _ => .ok (.dynamodb ⟨[], 0⟩)
  | .ok none => .ok (.dynamodb ⟨[], 0⟩)
  | .ok (some tableNames) =>
    .ok (.dynamodb (exportDynamoDBFold em includeData tableNames))

/-- exportSQSState: list queue URLs inside a try/catch — a failing listing
yields the empty state; an absent QueueUrl field yields the empty list. -/
def exportSQSState (em : Emulator) : Except String ServiceState :=
  match em.sqsList with
  | .error _ => .ok (.sqs ⟨[], 0⟩)
  | .ok none => .ok (.sqs ⟨[], 0⟩)
  | .ok (some queueUrls) => .ok (.sqs ⟨queueUrls, queueUrls.length⟩)

/-- exportSNSState: list topics inside a try/catch — a failing listing yields
the empty state. -/
def exportSNSState (em : Emulator) : Except String ServiceState :=
  match em.snsList with
  | .error _ => .ok (.sns ⟨[], 0⟩)
  | .ok none => .ok (.sns ⟨[], 0⟩)
  | .ok (some topics) => .ok (.sns ⟨topics, topics.length⟩)

/-- exportLambdaState: list functions inside a try/catch — a failing listing
yields the empty state; kept fields are name, runtime, handler, description,
timeout and memory size. -/
def exportLambdaState (em : Emulator) : Except String ServiceState :=
  match em.lambdaList with
  | .error _ => .ok (.lambda ⟨[], 0⟩)
  | .ok none => .ok (.lambda ⟨[], 0⟩)
  | .ok (some fns) =>
    .ok (.lambda ⟨fns.map (fun fn =>
      ⟨fn.FunctionName, fn.Runtime, fn.Handler, fn.Description,
       fn.Timeout, fn.MemorySize⟩), fns.length⟩)

/-- The JavaScript toLowerCase applied to a kind string, modelled as a
character-wise lowercase map over the string's characters. -/
def toLowerCase (s : String) : String := ⟨s.data.map Char.toLower⟩

/-- The service kinds the dispatch switches recognise. -/
def knownServiceKinds : List String := ["s3", "dynamodb", "sqs", "sns", "lambda"]

/-- exportServiceState: dispatch on the lowercased kind string; an unknown
kind yields null (no extractor). -/
def exportServiceState (em : Emulator) (service : String) (includeData : Bool) :
    Except String (Option ServiceState) :=
  if toLowerCase service = "s3" then (exportS3State em includeData).map some
  else if toLowerCase service = "dynamodb" then
    (exportDynamoDBState em includeData).map some
  else if toLowerCase service = "sqs" then (exportSQSState em).map some
  else if toLowerCase service = "sns" then (exportSNSState em).map some
  else if toLowerCase service = "lambda" then (exportLambdaState em).map some
  else .ok none

/-- The snapshot document written on export: format version, the emulator
version sampled at export, the requested kinds (metadata.exportedServices),
the services mapping (insertion-ordered, later assignments to a present key
overwrite it, as for a JavaScript object) and the recomputed total. -/
structure Snapshot where
  version : String
  localstackVersion : String
  exportedServices : List String
  services : List (String × ServiceState)
  totalResources : Nat
deriving Repr, DecidableEq

/-- The summary returned by a successful export. -/
structure ExportSummary where
  servicesExported : Nat
  totalResources : Nat
  recommendations : List String
deriving Repr, DecidableEq

/-- A structured failure returned at the tool boundary: success flag false,
error message, troubleshooting tips. -/
structure ToolFailure where
  error : String
  troubleshooting : List String
deriving Repr, DecidableEq

/-- getExportTroubleshootingTips. -/
def getExportTroubleshootingTips : List String :=
  ["Ensure LocalStack is running and accessible",
   "Check that specified services are enabled",
   "Verify sufficient disk space for export file",
   "Ensure write permissions for output directory"]

/-- getImportTroubleshootingTips. -/
def getImportTroubleshootingTips : List String :=
  ["Verify state file exists and is readable",
   "Ensure LocalStack is running and healthy",
   "Check that target services are enabled",
   "Clear existing resources if conflicts occur"]

/-- generateExportRecommendations, a function of the recomputed total. -/
def generateExportRecommendations (totalResources : Nat) : List String :=
  (if totalResources = 0 then
    ["No resources found - ensure LocalStack services are running and populated"]
   else []) ++
  (if totalResources > 100 then
    ["Large state export - consider splitting by service for better performance"]
   else []) ++
  ["Share this file with team members to replicate the environment",
   "Store in version control to track environment changes"]

/-- Assignment to a JavaScript object key: overwrite in place when the key is
present, append otherwise. -/
def upsert (m : List (String × ServiceState)) (k : String) (v : ServiceState) :
    List (String × ServiceState) :=
  if m.any (fun p => p.1 = k) then
    m.map (fun p => if p.1 = k then (k, v) else p)
  else m ++ [(k, v)]

/-- The export orchestrator's loop over the requested kinds: invoke each
kind's extractor, store a produced state under the kind's (verbatim) key and
add its resourceCount to the running total; a kind with no extractor is
skipped; an extractor error propagates. -/
def exportLoop (em : Emulator) (includeData : Bool) :
    List String → List (String × ServiceState) → Nat →
    Except String (List (String × ServiceState) × Nat)
  | [], acc, total => .ok (acc, total)
  | s :: rest, acc, total =>
    match exportServiceState em s includeData with
    | .error e => .error e
    | .ok none => exportLoop em includeData rest acc total
    | .ok (some ss) =>
      exportLoop em includeData rest (upsert acc s ss) (total + ss.resourceCount)

/-- performStateExport: sample the emulator version (failures swallowed),
run the extractor loop, then build the snapshot (written to the output file)
and the summary.  Note that validateLocalStackConnectivity is NOT invoked on
the export path; a returned value models a successfully written file, a
propagated error means no file was written. -/
def performStateExport (em : Emulator) (services : List String)
    (includeData : Bool) : Except String (Snapshot × ExportSummary) :=
  match exportLoop em includeData services [] 0 with
  | .error e => .error e
  | .ok (svcMap, total) =>
    .ok (⟨"1.0", getLocalStackVersion em, services, svcMap, total⟩,
         ⟨services.length, total, generateExportRecommendations total⟩)

/-- exportState: the tool boundary — any error thrown by performStateExport
is converted into a structured failure with export troubleshooting tips. -/
def exportState (em : Emulator) (services : List String) (includeData : Bool) :
    Except ToolFailure (Snapshot × ExportSummary) :=
  match performStateExport em services includeData with
  | .ok r => .ok r
  | .error e => .error ⟨e, getExportTroubleshootingTips⟩

/-- Split a character list on a separator character, keeping empty groups,
as the JavaScript String.split does for a one-character separator. -/
def splitOnChar (sep : Char) : List Char → List (List Char)
  | [] => [[]]
  | c :: rest =>
    if c = sep then [] :: splitOnChar sep rest
    else
      match splitOnChar sep rest with
      | [] => [[c]]
      | group :: groups => (c :: group) :: groups

/-- The queue name parsed from a stored queue URL: the last '/'-separated
component (the source's split-and-pop). -/
def queueNameFromUrl (queueUrl : String) : String :=
  ((splitOnChar '/' queueUrl.data).map (fun l => String.mk l)).getLastD ""

/-- The loop of importS3State: attempt to create each bucket by name; a
success increments imported, a failure increments skipped, and the loop
continues either way. -/
def importS3Buckets (em : Emulator) :
    List BucketInfo → Nat × Nat → Nat × Nat
  | [], acc => acc
  | b :: rest, acc =>
    match em.s3Create b.name with
    | .ok _ => importS3Buckets em rest (acc.1 + 1, acc.2)
    | .error _ => importS3Buckets em rest (acc.1, acc.2 + 1)

/-- importS3State: create every listed bucket, counting imported/skipped. -/
def importS3State (em : Emulator) (s3State : ServiceState) : Nat × Nat :=
  importS3Buckets em s3State.bucketsOrEmpty (0, 0)

/-- The loop of importSQSState: create each queue by the name parsed from its
stored URL; a success increments imported, a failure increments skipped. -/
def importSQSQueues (em : Emulator) :
    List String → Nat × Nat → Nat × Nat
  | [], acc => acc
  | q :: rest, acc =>
    match em.sqsCreate (queueNameFromUrl q) with
    | .ok _ => importSQSQueues em rest (acc.1 + 1, acc.2)
    | .error _ => importSQSQueues em rest (acc.1, acc.2 + 1)

/-- importSQSState: create every listed queue, counting imported/skipped. -/
def importSQSState (em : Emulator) (sqsState : ServiceState) : Nat × Nat :=
  importSQSQueues em sqsState.queuesOrEmpty (0, 0)

/-- importDynamoDBState: intentionally partial — every listed table is
reported as skipped and no create call is issued (the definition does not
consult the emulator at all). -/
def importDynamoDBState (dynamoState : ServiceState) : Nat × Nat :=
  (0, dynamoState.tablesOrEmpty.length)

/-- importSNSState: every listed topic is reported as skipped; no create
call is issued. -/
def importSNSState (snsState : ServiceState) : Nat × Nat :=
  (0, snsState.topicsOrEmpty.length)

/-- importLambdaState: every listed function is reported as skipped; no
create call is issued. -/
def importLambdaState (lambdaState : ServiceState) : Nat × Nat :=
  (0, lambdaState.functionsOrEmpty.length)

/-- importServiceState: dispatch on the lowercased kind string; an unknown
kind yields zero imported and zero skipped. -/
def importServiceState (em : Emulator) (service : String)
    (serviceState : ServiceState) : Nat × Nat :=
  if toLowerCase service = "s3" then importS3State em serviceState
  else if toLowerCase service = "dynamodb" then importDynamoDBState serviceState
  else if toLowerCase service = "sqs" then importSQSState em serviceState
  else if toLowerCase service = "sns" then importSNSState serviceState
  else if toLowerCase service = "lambda" then importLambdaState serviceState
  else (0, 0)

/-- The summary accumulated by performStateImport. -/
structure ImportSummary where
  version : String
  servicesFound : List String
  totalResources : Nat
  importedResources : Nat
  skippedResources : Nat
  errors : List String
deriving Repr, DecidableEq

/-- generateImportRecommendations. -/
def generateImportRecommendations (summary : ImportSummary)
    (stateData : Snapshot) : List String :=
  (if summary.errors.length > 0 then
    ["Some resources failed to import - check LocalStack logs for details"]
   else []) ++
  (if summary.skippedResources > 0 then
    ["Some resources were skipped - they may already exist or require manual creation"]
   else []) ++
  (if stateData.version ≠ "1.0" then
    ["State file version mismatch - some features may not work correctly"]
   else []) ++
  ["Verify imported resources match your expectations",
   "Test application functionality after import"]

/-- The import orchestrator's loop over the document's (kind, state) pairs in
document order, accumulating imported and skipped counts.  The source wraps
each reconstructor call in a try/catch that appends to the errors list, but
every reconstructor is total in this embedding (each already swallows its
per-resource failures), so that branch never fires. -/
def importLoop (em : Emulator) :
    List (String × ServiceState) → ImportSummary → ImportSummary
  | [], summary => summary
  | (service, st) :: rest, summary =>
    let r := importServiceState em service st
    importLoop em rest
      { summary with
        importedResources := summary.importedResources + r.1
        skippedResources := summary.skippedResources + r.2 }

/-- performStateImport: read and parse the snapshot file (modelled as an
`Except` input: a read or parse failure propagates), build the base summary,
validate connectivity once (a failure propagates), then run every
reconstructor and attach recommendations. -/
def performStateImport (em : Emulator) (file : Except String Snapshot) :
    Except String (ImportSummary × List String) :=
  match file with
  | .error e => .error e
  | .ok stateData =>
    let base : ImportSummary :=
      ⟨stateData.version, stateData.services.map (fun p => p.1),
       stateData.totalResources, 0, 0, []⟩
    match validateLocalStackConnectivity em with
    | .error e => .error e
    | .ok _ =>
      let final := importLoop em stateData.services base
      .ok (final, generateImportRecommendations final stateData)

/-- importState: the tool boundary — any error thrown by performStateImport
is converted into a structured failure with import troubleshooting tips. -/
def importState (em : Emulator) (file : Except String Snapshot) :
    Except ToolFailure (ImportSummary × List String) :=
  match performStateImport em file with
  | .ok r => .ok r
  | .error e => .error ⟨e, getImportTroubleshootingTips⟩

/-- A second account of the exported total, written from the specification's
words: the sum of the resourceCount fields of the ServiceStates actually
produced by the extractor calls, in request order, where a kind with no
extractor contributes zero. -/
def specTotalResources (em : Emulator) (includeData : Bool) :
    List String → Except String Nat
  | [] => .ok 0
  | s :: rest =>
    match exportServiceState em s includeData with
    | .error e => .error e
    | .ok none => specTotalResources em includeData rest
    | .ok (some ss) =>
      match specTotalResources em includeData rest with
      | .error e => .error e
      | .ok n => .ok (ss.resourceCount + n)

/-- A concrete emulator on which every request fails. -/
def downEmu : Emulator :=
  { health := .error "down"
    s3List := .error "down"
    s3Objects := fun _ => .error "down"
    ddbList := .error "down"
    ddbDescribe := fun _ => .error "down"
    ddbScanCount := fun _ => .error "down"
    sqsList := .error "down"
    snsList := .error "down"
    lambdaList := .error "down"
    s3Create := fun _ => .error "down"
    sqsCreate := fun _ => .error "down" }

/-- A concrete healthy emulator holding two buckets and one queue; every
create call succeeds. -/
def okEmu : Emulator :=
  { health := .ok "3.0.0"
    s3List := .ok (some [⟨"alpha", "2024-01-01"⟩, ⟨"beta", "2024-01-02"⟩])
    s3Objects := fun _ => .ok none
    ddbList := .ok none
    ddbDescribe := fun _ => .error "no table"
    ddbScanCount := fun _ => .ok 0
    sqsList := .ok (some ["http://localhost:4566/000000000000/jobs"])
    snsList := .ok none
    lambdaList := .ok none
    s3Create := fun _ => .ok ()
    sqsCreate := fun _ => .ok () }

/-! ### Helper lemmas -/

theorem s3FoldStep_spec (em : Emulator) (d : Bool) (l : List RawBucket) :
    ∀ st0 : S3State,
      (l.foldl (fun st b => ⟨st.buckets ++ [exportS3Bucket em d b],
        st.resourceCount + 1⟩) st0).resourceCount = st0.resourceCount + l.length ∧
      (l.foldl (fun st b => ⟨st.buckets ++ [exportS3Bucket em d b],
        st.resourceCount + 1⟩) st0).buckets.length = st0.buckets.length + l.length := by
  induction l with
  | nil => intro st0; simp
  | cons b rest ih =>
    intro st0
    simp only [List.foldl_cons]
    obtain ⟨h1, h2⟩ := ih ⟨st0.buckets ++ [exportS3Bucket em d b], st0.resourceCount + 1⟩
    refine ⟨?_, ?_⟩
    · rw [h1]; simp only [List.length_cons]; omega
    · rw [h2]; simp only [List.length_append, List.length_cons, List.length_nil]; omega

theorem exportS3Fold_spec (em : Emulator) (d : Bool) (l : List RawBucket) :
    (exportS3Fold em d l).resourceCount = l.length ∧
    (exportS3Fold em d l).buckets.length = l.length := by
  obtain ⟨h1, h2⟩ := s3FoldStep_spec em d l ⟨[], 0⟩
  exact ⟨by simpa using h1, by simpa using h2⟩

theorem ddbFoldStep_spec (em : Emulator) (d : Bool) (l : List String) :
    ∀ st0 : DynamoState,
      (l.foldl (fun st n => ⟨st.tables ++ [getDynamoDBTableInfo em n d],
        st.resourceCount + 1⟩) st0).resourceCount = st0.resourceCount + l.length ∧
      (l.foldl (fun st n => ⟨st.tables ++ [getDynamoDBTableInfo em n d],
        st.resourceCount + 1⟩) st0).tables.length = st0.tables.length + l.length := by
  induction l with
  | nil => intro st0; simp
  | cons t rest ih =>
    intro st0
    simp only [List.foldl_cons]
    obtain ⟨h1, h2⟩ := ih ⟨st0.tables ++ [getDynamoDBTableInfo em t d], st0.resourceCount + 1⟩
    refine ⟨?_, ?_⟩
    · rw [h1]; simp only [List.length_cons]; omega
    · rw [h2]; simp only [List.length_append, List.length_cons, List.length_nil]; omega

theorem exportDynamoDBFold_spec (em : Emulator) (d : Bool) (l : List String) :
    (exportDynamoDBFold em d l).resourceCount = l.length ∧
    (exportDynamoDBFold em d l).tables.length = l.length := by
  obtain ⟨h1, h2⟩ := ddbFoldStep_spec em d l ⟨[], 0⟩
  exact ⟨by simpa using h1, by simpa using h2⟩

theorem exportS3State_count (em : Emulator) (d : Bool) (st : ServiceState)
    (h : exportS3State em d = .ok st) :
    st.resourceCount = st.itemListLength := by
  unfold exportS3State at h
  cases hL : em.s3List with
  | error e => rw [hL] at h; simp at h
  | ok r =>
    rw [hL] at h
    cases r with
    | none =>
      simp only [Except.ok.injEq] at h
      subst h; rfl
    | some l =>
      simp only [Except.ok.injEq] at h
      subst h
      simp only [ServiceState.resourceCount, ServiceState.itemListLength]
      obtain ⟨h1, h2⟩ := exportS3Fold_spec em d l
      rw [h1, h2]

theorem exportDynamoDBState_count (em : Emulator) (d : Bool) (st : ServiceState)
    (h : exportDynamoDBState em d = .ok st) :
    st.resourceCount = st.itemListLength := by
  unfold exportDynamoDBState at h
  cases hL : em.ddbList with
  | error e =>
    rw [hL] at h
    simp only [Except.ok.injEq] at h
    subst h; rfl
  | ok r =>
    rw [hL] at h
    cases r with
    | none =>
      simp only [Except.ok.injEq] at h
      subst h; rfl
    | some l =>
      simp only [Except.ok.injEq] at h
      subst h
      simp only [ServiceState.resourceCount, ServiceState.itemListLength]
      obtain ⟨h1, h2⟩ := exportDynamoDBFold_spec em d l
      rw [h1, h2]

theorem exportSQSState_count (em : Emulator) (st : ServiceState)
    (h : exportSQSState em = .ok st) :
    st.resourceCount = st.itemListLength := by
  unfold exportSQSState at h
  cases hL : em.sqsList with
  | error e =>
    rw [hL] at h
    simp only [Except.ok.injEq] at h
    subst h; rfl
  | ok r =>
    rw [hL] at h
    cases r with
    | none =>
      simp only [Except.ok.injEq] at h
      subst h; rfl
    | some l =>
      simp only [Except.ok.injEq] at h
      subst h; rfl

theorem exportSNSState_count (em : Emulator) (st : ServiceState)
    (h : exportSNSState em = .ok st) :
    st.resourceCount = st.itemListLength := by
  unfold exportSNSState at h
  cases hL : em.snsList with
  | error e =>
    rw [hL] at h
    simp only [Except.ok.injEq] at h
    subst h; rfl
  | ok r =>
    rw [hL] at h
    cases r with
    | none =>
      simp only [Except.ok.injEq] at h
      subst h; rfl
    | some l =>
      simp only [Except.ok.injEq] at h
      subst h; rfl

theorem exportLambdaState_count (em : Emulator) (st : ServiceState)
    (h : exportLambdaState em = .ok st) :
    st.resourceCount = st.itemListLength := by
  unfold exportLambdaState at h
  cases hL : em.lambdaList with
  | error e =>
    rw [hL] at h
    simp only [Except.ok.injEq] at h
    subst h; rfl
  | ok r =>
    rw [hL] at h
    cases r with
    | none =>
      simp only [Except.ok.injEq] at h
      subst h; rfl
    | some l =>
      simp only [Except.ok.injEq] at h
      subst h
      simp only [ServiceState.resourceCount, ServiceState.itemListLength,
        List.length_map]

theorem map_some_ok {α : Type} (e : Except String α) (x : α)
    (h : e.map some = .ok (some x)) : e = .ok x := by
  cases e with
  | error err => simp [Except.map] at h
  | ok y =>
    simp only [Except.map, Except.ok.injEq, Option.some.injEq] at h
    rw [h]

theorem exportServiceState_count (em : Emulator) (d : Bool) (s : String)
    (st : ServiceState) (h : exportServiceState em s d = .ok (some st)) :
    st.resourceCount = st.itemListLength := by
  unfold exportServiceState at h
  split_ifs at h
  · exact exportS3State_count em d st (map_some_ok _ _ h)
  · exact exportDynamoDBState_count em d st (map_some_ok _ _ h)
  · exact exportSQSState_count em st (map_some_ok _ _ h)
  · exact exportSNSState_count em st (map_some_ok _ _ h)
  · exact exportLambdaState_count em st (map_some_ok _ _ h)
  · simp at h

theorem upsert_forall (P : String × ServiceState → Prop)
    (m : List (String × ServiceState)) (k : String) (v : ServiceState)
    (hm : ∀ p ∈ m, P p) (hv : P (k, v)) : ∀ p ∈ upsert m k v, P p := by
  intro p hp
  unfold upsert at hp
  by_cases hc : m.any (fun p => p.1 = k)
  · rw [if_pos hc] at hp
    obtain ⟨q, hq, hEq⟩ := List.mem_map.mp hp
    by_cases hqk : q.1 = k
    · rw [if_pos hqk] at hEq
      exact hEq ▸ hv
    · rw [if_neg hqk] at hEq
      exact hEq ▸ hm q hq
  · rw [if_neg hc] at hp
    rcases List.mem_append.mp hp with h1 | h1
    · exact hm p h1
    · have hpk : p = (k, v) := by simpa using h1
      exact hpk ▸ hv

theorem exportLoop_total (em : Emulator) (d : Bool) (ss : List String) :
    ∀ (acc : List (String × ServiceState)) (total : Nat)
      (m : List (String × ServiceState)) (T : Nat),
      exportLoop em d ss acc total = .ok (m, T) →
      ∃ n, specTotalResources em d ss = .ok n ∧ T = total + n := by
  induction ss with
  | nil =>
    intro acc total m T h
    simp only [exportLoop, Except.ok.injEq, Prod.mk.injEq] at h
    exact ⟨0, by simp [specTotalResources], by omega⟩
  | cons s rest ih =>
    intro acc total m T h
    simp only [exportLoop] at h
    cases hE : exportServiceState em s d with
    | error e => rw [hE] at h; simp at h
    | ok r =>
      rw [hE] at h
      cases r with
      | none =>
        obtain ⟨n, hs, hT⟩ := ih _ _ _ _ h
        exact ⟨n, by simp [specTotalResources, hE, hs], hT⟩
      | some x =>
        obtain ⟨n, hs, hT⟩ := ih _ _ _ _ h
        refine ⟨x.resourceCount + n, ?_, by omega⟩
        simp [specTotalResources, hE, hs]

theorem exportLoop_states (em : Emulator) (d : Bool) (P : ServiceState → Prop)
    (hP : ∀ s st, exportServiceState em s d = .ok (some st) → P st)
    (ss : List String) :
    ∀ (acc : List (String × ServiceState)) (total : Nat)
      (m : List (String × ServiceState)) (T : Nat),
      exportLoop em d ss acc total = .ok (m, T) →
      (∀ p ∈ acc, P p.2) → ∀ p ∈ m, P p.2 := by
  induction ss with
  | nil =>
    intro acc total m T h hacc
    simp only [exportLoop, Except.ok.injEq, Prod.mk.injEq] at h
    exact h.1 ▸ hacc
  | cons s rest ih =>
    intro acc total m T h hacc
    simp only [exportLoop] at h
    cases hE : exportServiceState em s d with
    | error e => rw [hE] at h; simp at h
    | ok r =>
      rw [hE] at h
      cases r with
      | none => exact ih _ _ _ _ h hacc
      | some x =>
        refine ih _ _ _ _ h ?_
        exact upsert_forall (fun q => P q.2) acc s x hacc (hP s x hE)

theorem exportLoop_keys (em : Emulator) (d : Bool) (s0 : String)
    (h0 : exportServiceState em s0 d = .ok none) (ss : List String) :
    ∀ (acc : List (String × ServiceState)) (total : Nat)
      (m : List (String × ServiceState)) (T : Nat),
      exportLoop em d ss acc total = .ok (m, T) →
      (∀ p ∈ acc, p.1 ≠ s0) → ∀ p ∈ m, p.1 ≠ s0 := by
  induction ss with
  | nil =>
    intro acc total m T h hacc
    simp only [exportLoop, Except.ok.injEq, Prod.mk.injEq] at h
    exact h.1 ▸ hacc
  | cons s rest ih =>
    intro acc total m T h hacc
    simp only [exportLoop] at h
    cases hE : exportServiceState em s d with
    | error e => rw [hE] at h; simp at h
    | ok r =>
      rw [hE] at h
      cases r with
      | none => exact ih _ _ _ _ h hacc
      | some x =>
        refine ih _ _ _ _ h ?_
        refine upsert_forall (fun q => q.1 ≠ s0) acc s x hacc ?_
        intro hss
        rw [show (s, x).1 = s from rfl] at hss
        rw [hss, h0] at hE
        simp at hE

theorem importS3Buckets_sum (em : Emulator) (l : List BucketInfo) :
    ∀ acc : Nat × Nat,
      (importS3Buckets em l acc).1 + (importS3Buckets em l acc).2 =
        acc.1 + acc.2 + l.length := by
  induction l with
  | nil => intro acc; simp [importS3Buckets]
  | cons b rest ih =>
    intro acc
    simp only [importS3Buckets]
    cases h : em.s3Create b.name with
    | ok u =>
      rw [ih (acc.1 + 1, acc.2)]
      simp only [List.length_cons]
      omega
    | error e =>
      rw [ih (acc.1, acc.2 + 1)]
      simp only [List.length_cons]
      omega

theorem importSQSQueues_sum (em : Emulator) (l : List String) :
    ∀ acc : Nat × Nat,
      (importSQSQueues em l acc).1 + (importSQSQueues em l acc).2 =
        acc.1 + acc.2 + l.length := by
  induction l with
  | nil => intro acc; simp [importSQSQueues]
  | cons q rest ih =>
    intro acc
    simp only [importSQSQueues]
    cases h : em.sqsCreate (queueNameFromUrl q) with
    | ok u =>
      rw [ih (acc.1 + 1, acc.2)]
      simp only [List.length_cons]
      omega
    | error e =>
      rw [ih (acc.1, acc.2 + 1)]
      simp only [List.length_cons]
      omega

theorem importS3Buckets_allOk (em : Emulator)
    (hc : ∀ n, em.s3Create n = .ok ()) (l : List BucketInfo) :
    ∀ acc : Nat × Nat, importS3Buckets em l acc = (acc.1 + l.length, acc.2) := by
  induction l with
  | nil => intro acc; simp [importS3Buckets]
  | cons b rest ih =>
    intro acc
    simp only [importS3Buckets, hc b.name]
    rw [ih (acc.1 + 1, acc.2)]
    simp only [List.length_cons, Prod.mk.injEq, and_true]
    omega

theorem exportServiceState_unreachable (em : Emulator) (hu : em.Unreachable)
    (s : String) (d : Bool) :
    if toLowerCase s = "s3" then ∃ e, exportServiceState em s d = .error e
    else ∃ r, exportServiceState em s d = .ok r ∧
      ∀ st, r = some st → st.resourceCount = 0 := by
  obtain ⟨⟨e0, h0⟩, ⟨e1, h1⟩, ⟨e2, h2⟩, ⟨e3, h3⟩, ⟨e4, h4⟩, ⟨e5, h5⟩⟩ := hu
  by_cases hs : toLowerCase s = "s3"
  · rw [if_pos hs]
    refine ⟨e1, ?_⟩
    unfold exportServiceState
    rw [if_pos hs]
    simp [exportS3State, h1, Except.map]
  · rw [if_neg hs]
    unfold exportServiceState
    rw [if_neg hs]
    split_ifs with hd hq hn hl
    · refine ⟨some (.dynamodb ⟨[], 0⟩), ?_, ?_⟩
      · simp [exportDynamoDBState, h2, Except.map]
      · intro st hst
        injection hst with hst
        subst hst; rfl
    · refine ⟨some (.sqs ⟨[], 0⟩), ?_, ?_⟩
      · simp [exportSQSState, h3, Except.map]
      · intro st hst
        injection hst with hst
        subst hst; rfl
    · refine ⟨some (.sns ⟨[], 0⟩), ?_, ?_⟩
      · simp [exportSNSState, h4, Except.map]
      · intro st hst
        injection hst with hst
        subst hst; rfl
    · refine ⟨some (.lambda ⟨[], 0⟩), ?_, ?_⟩
      · simp [exportLambdaState, h5, Except.map]
      · intro st hst
        injection hst with hst
        subst hst; rfl
    · exact ⟨none, rfl, fun st hst => Option.noConfusion hst⟩

theorem exportLoop_unreachable (em : Emulator) (hu : em.Unreachable) (d : Bool)
    (ss : List String) :
    ∀ (acc : List (String × ServiceState)) (total : Nat),
      (ss.any (fun s => toLowerCase s == "s3") = true →
        ∃ e, exportLoop em d ss acc total = .error e) ∧
      (ss.any (fun s => toLowerCase s == "s3") = false →
        ∃ m, exportLoop em d ss acc total = .ok (m, total)) := by
  induction ss with
  | nil =>
    intro acc total
    refine ⟨?_, ?_⟩
    · intro h; simp at h
    · intro h; exact ⟨acc, by simp [exportLoop]⟩
  | cons s rest ih =>
    intro acc total
    have hE := exportServiceState_unreachable em hu s d
    by_cases hs : toLowerCase s = "s3"
    · rw [if_pos hs] at hE
      obtain ⟨e, hE⟩ := hE
      refine ⟨?_, ?_⟩
      · intro _
        exact ⟨e, by simp [exportLoop, hE]⟩
      · intro hany
        exfalso
        simp only [List.any_cons, Bool.or_eq_false_iff] at hany
        rw [hs] at hany
        simp at hany
    · rw [if_neg hs] at hE
      obtain ⟨r, hE, hcnt⟩ := hE
      have hfalse : (toLowerCase s == "s3") = false := by
        simp [hs]
      refine ⟨?_, ?_⟩
      · intro hany
        simp only [List.any_cons, hfalse, Bool.false_or] at hany
        cases r with
        | none =>
          obtain ⟨e, hloop⟩ := (ih acc total).1 hany
          exact ⟨e, by simp only [exportLoop, hE]; exact hloop⟩
        | some x =>
          have hx : x.resourceCount = 0 := hcnt x rfl
          obtain ⟨e, hloop⟩ := (ih (upsert acc s x) (total + x.resourceCount)).1 hany
          exact ⟨e, by simp only [exportLoop, hE]; exact hloop⟩
      · intro hany
        simp only [List.any_cons, hfalse, Bool.false_or] at hany
        cases r with
        | none =>
          obtain ⟨m, hloop⟩ := (ih acc total).2 hany
          exact ⟨m, by simp only [exportLoop, hE]; exact hloop⟩
        | some x =>
          have hx : x.resourceCount = 0 := hcnt x rfl
          obtain ⟨m, hloop⟩ := (ih (upsert acc s x) total).2 hany
          refine ⟨m, ?_⟩
          simp only [exportLoop, hE, hx, Nat.add_zero]
          exact hloop

/-! ### Claims -/

/-- C2, counterexample: the claim says every kind's extractor converts a
failing whole-kind listing into an empty ServiceState, but the s3
extractor's listing call is not guarded: against an emulator whose every
request fails it propagates the error instead of returning an empty
state. -/
theorem claimC2_counterexample : exportS3State downEmu true = .error "down" := rfl

/-- C2, amended: for every kind except s3, a failing whole-kind listing
yields an empty ServiceState with resourceCount 0 instead of propagating;
the s3 extractor propagates its listing error. -/
theorem claimC2_amended (em : Emulator) (d : Bool) (e1 e2 e3 e4 e5 : String)
    (h1 : em.s3List = .error e1) (h2 : em.ddbList = .error e2)
    (h3 : em.sqsList = .error e3) (h4 : em.snsList = .error e4)
    (h5 : em.lambdaList = .error e5) :
    exportS3State em d = .error e1 ∧
    exportDynamoDBState em d = .ok (.dynamodb ⟨[], 0⟩) ∧
    exportSQSState em = .ok (.sqs ⟨[], 0⟩) ∧
    exportSNSState em = .ok (.sns ⟨[], 0⟩) ∧
    exportLambdaState em = .ok (.lambda ⟨[], 0⟩) := by
  refine ⟨?_, ?_, ?_, ?_, ?_⟩
  · simp [exportS3State, h1]
  · simp [exportDynamoDBState, h2]
  · simp [exportSQSState, h3]
  · simp [exportSNSState, h4]
  · simp [exportLambdaState, h5]

/-- C2, witness for the amended claim at a concrete emulator whose every
request fails. -/
theorem claimC2_amended_witness :
    exportS3State downEmu false = .error "down" ∧
    exportDynamoDBState downEmu false = .ok (.dynamodb ⟨[], 0⟩) ∧
    exportSQSState downEmu = .ok (.sqs ⟨[], 0⟩) ∧
    exportSNSState downEmu = .ok (.sns ⟨[], 0⟩) ∧
    exportLambdaState downEmu = .ok (.lambda ⟨[], 0⟩) :=
  claimC2_amended downEmu false "down" "down" "down" "down" "down"
    rfl rfl rfl rfl rfl

/-- C4, counterexample: the claim says servicesExported counts the kinds
that actually produced a ServiceState, but with requested kinds s3 and an
unknown kind the summary reports 2 while only one service was exported. -/
theorem claimC4_counterexample :
    ∃ snap summ,
      performStateExport okEmu ["s3", "unknownsvc"] true = .ok (snap, summ) ∧
      summ.servicesExported = 2 ∧ snap.services.length = 1 :=
  ⟨_, _, rfl, rfl, rfl⟩

/-- C4, amended: servicesExported equals the length of the requested
service-kind list, whether or not each kind produced a ServiceState. -/
theorem claimC4_amended (em : Emulator) (services : List String) (d : Bool)
    (snap : Snapshot) (summ : ExportSummary)
    (h : performStateExport em services d = .ok (snap, summ)) :
    summ.servicesExported = services.length := by
  unfold performStateExport at h
  cases hL : exportLoop em d services [] 0 with
  | error e => rw [hL] at h; simp at h
  | ok p =>
    obtain ⟨m, T⟩ := p
    rw [hL] at h
    simp only [Except.ok.injEq, Prod.mk.injEq] at h
    rw [← h.2]

/-- C4, witness for the amended claim at a concrete export. -/
theorem claimC4_amended_witness :
    ∃ snap summ,
      performStateExport okEmu ["s3", "sqs", "unknownsvc"] true = .ok (snap, summ) ∧
      summ.servicesExported = 3 :=
  ⟨_, _, rfl, claimC4_amended okEmu ["s3", "sqs", "unknownsvc"] true _ _ rfl⟩

/-- C6: the dynamodb, sns and lambda reconstructors report importedCount 0
and skippedCount equal to the number of resources listed in the state, and
their result does not depend on the emulator at all (no create call is
issued). -/
theorem claimC6 (em em2 : Emulator) (st : ServiceState) :
    importServiceState em "dynamodb" st = (0, st.tablesOrEmpty.length) ∧
    importServiceState em "sns" st = (0, st.topicsOrEmpty.length) ∧
    importServiceState em "lambda" st = (0, st.functionsOrEmpty.length) ∧
    importServiceState em "dynamodb" st = importServiceState em2 "dynamodb" st ∧
    importServiceState em "sns" st = importServiceState em2 "sns" st ∧
    importServiceState em "lambda" st = importServiceState em2 "lambda" st :=
  ⟨rfl, rfl, rfl, rfl, rfl, rfl⟩

/-- C7: the s3 and sqs reconstructors never abort — importedCount plus
skippedCount always equals the number of listed resources — and a failing
create call for the next resource turns into a skip after which the loop
continues with the remaining resources. -/
theorem claimC7 (em : Emulator) (st : ServiceState) :
    ((importS3State em st).1 + (importS3State em st).2 =
      st.bucketsOrEmpty.length) ∧
    ((importSQSState em st).1 + (importSQSState em st).2 =
      st.queuesOrEmpty.length) ∧
    (∀ (b : BucketInfo) (rest : List BucketInfo) (i s : Nat) (e : String),
      em.s3Create b.name = .error e →
      importS3Buckets em (b :: rest) (i, s) = importS3Buckets em rest (i, s + 1)) ∧
    (∀ (q : String) (rest : List String) (i s : Nat) (e : String),
      em.sqsCreate (queueNameFromUrl q) = .error e →
      importSQSQueues em (q :: rest) (i, s) = importSQSQueues em rest (i, s + 1)) := by
  refine ⟨?_, ?_, ?_, ?_⟩
  · have h := importS3Buckets_sum em st.bucketsOrEmpty (0, 0)
    simpa [importS3State] using h
  · have h := importSQSQueues_sum em st.queuesOrEmpty (0, 0)
    simpa [importSQSState] using h
  · intro b rest i s e he
    simp [importS3Buckets, he]
  · intro q rest i s e he
    simp [importSQSQueues, he]

/-- C7, witness at a concrete emulator whose create calls all fail. -/
theorem claimC7_witness :
    (importS3State downEmu (ServiceState.s3 ⟨[⟨"a", "d", []⟩], 1⟩)).1 +
    (importS3State downEmu (ServiceState.s3 ⟨[⟨"a", "d", []⟩], 1⟩)).2 =
    (ServiceState.s3 ⟨[⟨"a", "d", []⟩], 1⟩).bucketsOrEmpty.length :=
  (claimC7 downEmu (ServiceState.s3 ⟨[⟨"a", "d", []⟩], 1⟩)).1

/-- C8: an unreadable or unparseable snapshot file makes the import tool
return a structured failure (error message plus troubleshooting tips), the
result does not depend on the emulator (no reconstructor call is made), and
no partial summary is produced. -/
theorem claimC8 (em em2 : Emulator) (e : String) :
    importState em (.error e) = .error ⟨e, getImportTroubleshootingTips⟩ ∧
    importState em (.error e) = importState em2 (.error e) :=
  ⟨rfl, rfl⟩

/-- C10: service-kind dispatch in export and import is determined by the
lowercased kind string, and a string whose lowercasing matches no known kind
yields null on export and zero imported, zero skipped on import. -/
theorem claimC10 (em : Emulator) (d : Bool) (st : ServiceState) (s t : String)
    (h : toLowerCase s = toLowerCase t) :
    exportServiceState em s d = exportServiceState em t d ∧
    importServiceState em s st = importServiceState em t st ∧
    (toLowerCase s ∉ knownServiceKinds →
      exportServiceState em s d = .ok none ∧
      importServiceState em s st = (0, 0)) := by
  refine ⟨?_, ?_, ?_⟩
  · unfold exportServiceState
    rw [h]
  · unfold importServiceState
    rw [h]
  · intro hk
    simp only [knownServiceKinds, List.mem_cons, List.not_mem_nil, or_false,
      not_or] at hk
    obtain ⟨k1, k2, k3, k4, k5⟩ := hk
    constructor
    · unfold exportServiceState
      rw [if_neg k1, if_neg k2, if_neg k3, if_neg k4, if_neg k5]
    · unfold importServiceState
      rw [if_neg k1, if_neg k2, if_neg k3, if_neg k4, if_neg k5]

/-- C10, witness: the capitalised kind string selects the same extractor as
the lowercase one. -/
theorem claimC10_witness :
    exportServiceState okEmu "S3" true = exportServiceState okEmu "s3" true :=
  (claimC10 okEmu true (ServiceState.s3 ⟨[], 0⟩) "S3" "s3" rfl).1

/-- C1, counterexample: the claim says export validates connectivity first
and fails wholesale when the emulator is unreachable, but against an
emulator whose every request fails, an export of the dynamodb kind still
succeeds and writes a snapshot (with an empty state and version sampled as
unknown), even though the connectivity probe would have failed. -/
theorem claimC1_counterexample :
    (validateLocalStackConnectivity downEmu).isOk = false ∧
    exportState downEmu ["dynamodb"] true =
      .ok (⟨"1.0", "unknown", ["dynamodb"],
            [("dynamodb", .dynamodb ⟨[], 0⟩)], 0⟩,
           ⟨1, 0, generateExportRecommendations 0⟩) :=
  ⟨rfl, rfl⟩

/-- C1, amended: the export orchestrator performs no connectivity
validation before invoking extractors.  With an unreachable emulator the
export fails — as a structured failure, without writing a snapshot — exactly
when some requested kind lowercases to s3 (whose unguarded listing call
propagates); otherwise every extractor is still invoked and the export
succeeds, writing a snapshot with zero total resources. -/
theorem claimC1_amended (em : Emulator) (services : List String) (d : Bool)
    (hu : em.Unreachable) :
    (services.any (fun s => toLowerCase s == "s3") = true →
      ∃ e, exportState em services d =
        .error ⟨e, getExportTroubleshootingTips⟩) ∧
    (services.any (fun s => toLowerCase s == "s3") = false →
      ∃ snap summ, exportState em services d = .ok (snap, summ) ∧
        snap.totalResources = 0 ∧ summ.totalResources = 0) := by
  obtain ⟨h1, h2⟩ := exportLoop_unreachable em hu d services [] 0
  refine ⟨?_, ?_⟩
  · intro hany
    obtain ⟨e, hloop⟩ := h1 hany
    exact ⟨e, by simp [exportState, performStateExport, hloop]⟩
  · intro hany
    obtain ⟨m, hloop⟩ := h2 hany
    exact ⟨⟨"1.0", getLocalStackVersion em, services, m, 0⟩,
           ⟨services.length, 0, generateExportRecommendations 0⟩,
           by simp [exportState, performStateExport, hloop], rfl, rfl⟩

/-- C1, witness for the amended claim: exporting the dynamodb kind against
the concrete unreachable emulator succeeds with zero resources. -/
theorem claimC1_amended_witness :
    ∃ snap summ, exportState downEmu ["dynamodb"] true = .ok (snap, summ) ∧
      snap.totalResources = 0 ∧ summ.totalResources = 0 :=
  (claimC1_amended downEmu ["dynamodb"] true
    ⟨⟨"down", rfl⟩, ⟨"down", rfl⟩, ⟨"down", rfl⟩, ⟨"down", rfl⟩,
     ⟨"down", rfl⟩, ⟨"down", rfl⟩⟩).2 rfl

/-- C3: the totalResources of an export summary (and of the written
snapshot) equals the sum of the resourceCount fields of the ServiceStates
the extractor calls actually produced, and a requested kind whose dispatch
finds no extractor does not appear as a key of the services mapping. -/
theorem claimC3 (em : Emulator) (services : List String) (d : Bool)
    (snap : Snapshot) (summ : ExportSummary)
    (h : performStateExport em services d = .ok (snap, summ)) :
    specTotalResources em d services = .ok summ.totalResources ∧
    summ.totalResources = snap.totalResources ∧
    ∀ s, exportServiceState em s d = .ok none →
      s ∉ snap.services.map Prod.fst := by
  unfold performStateExport at h
  cases hL : exportLoop em d services [] 0 with
  | error e => rw [hL] at h; simp at h
  | ok p =>
    obtain ⟨m, T⟩ := p
    rw [hL] at h
    simp only [Except.ok.injEq, Prod.mk.injEq] at h
    obtain ⟨hsnap, hsumm⟩ := h
    subst hsnap
    subst hsumm
    obtain ⟨n, hspec, hT⟩ := exportLoop_total em d services [] 0 m T hL
    refine ⟨?_, rfl, ?_⟩
    · rw [hspec]
      simp only [Except.ok.injEq]
      omega
    · intro s hs hmem
      obtain ⟨p, hp, hps⟩ := List.mem_map.mp hmem
      exact exportLoop_keys em d s hs services [] 0 m T hL
        (by intro p hp; simp at hp) p hp hps

/-- C3, witness at a concrete export containing an s3 state of two buckets
and a kind with no extractor. -/
theorem claimC3_witness :
    specTotalResources okEmu true ["s3", "unknownsvc"] = .ok 2 :=
  (claimC3 okEmu ["s3", "unknownsvc"] true _ _ rfl).1

/-- C5: in every snapshot produced by export, each stored ServiceState's
resourceCount equals the length of its per-kind item list; in particular a
state with resourceCount 2 and an empty list can never be produced. -/
theorem claimC5 (em : Emulator) (services : List String) (d : Bool)
    (snap : Snapshot) (summ : ExportSummary)
    (h : performStateExport em services d = .ok (snap, summ)) :
    ∀ p ∈ snap.services, p.2.resourceCount = p.2.itemListLength := by
  unfold performStateExport at h
  cases hL : exportLoop em d services [] 0 with
  | error e => rw [hL] at h; simp at h
  | ok q =>
    obtain ⟨m, T⟩ := q
    rw [hL] at h
    simp only [Except.ok.injEq, Prod.mk.injEq] at h
    obtain ⟨hsnap, hsumm⟩ := h
    subst hsnap
    exact exportLoop_states em d
      (fun st => st.resourceCount = st.itemListLength)
      (fun s st hst => exportServiceState_count em d s st hst)
      services [] 0 m T hL (by intro p hp; simp at hp)

/-- C5, witness at a concrete export of two buckets. -/
theorem claimC5_witness :
    (ServiceState.s3 ⟨[⟨"alpha", "2024-01-01", []⟩, ⟨"beta", "2024-01-02", []⟩],
      2⟩).resourceCount =
    (ServiceState.s3 ⟨[⟨"alpha", "2024-01-01", []⟩, ⟨"beta", "2024-01-02", []⟩],
      2⟩).itemListLength :=
  claimC5 okEmu ["s3"] true _ _ rfl
    ("s3", ServiceState.s3
      ⟨[⟨"alpha", "2024-01-01", []⟩, ⟨"beta", "2024-01-02", []⟩], 2⟩)
    (List.Mem.head _)

/-- C9: exporting only the s3 kind and importing the resulting snapshot
against a reachable emulator on which every bucket create call succeeds
yields importedCount equal to the number of exported buckets and
skippedCount 0. -/
theorem claimC9 (em emFresh : Emulator) (bs : List RawBucket) (v : String)
    (snap : Snapshot) (summ : ExportSummary)
    (hList : em.s3List = .ok (some bs))
    (hHealth : emFresh.health = .ok v)
    (hCreate : ∀ n, emFresh.s3Create n = .ok ())
    (hExport : performStateExport em ["s3"] true = .ok (snap, summ)) :
    ∃ isum recs, performStateImport emFresh (.ok snap) = .ok (isum, recs) ∧
      isum.importedResources = bs.length ∧ isum.skippedResources = 0 := by
  have hsvc : exportServiceState em "s3" true =
      .ok (some (.s3 (exportS3Fold em true bs))) := by
    unfold exportServiceState
    rw [if_pos (show toLowerCase "s3" = "s3" from rfl)]
    simp [exportS3State, hList, Except.map]
  have hloop : exportLoop em true ["s3"] [] 0 =
      .ok ([("s3", ServiceState.s3 (exportS3Fold em true bs))],
           (exportS3Fold em true bs).resourceCount) := by
    simp [exportLoop, hsvc, upsert, ServiceState.resourceCount]
  have hsnap : snap = ⟨"1.0", getLocalStackVersion em, ["s3"],
      [("s3", ServiceState.s3 (exportS3Fold em true bs))],
      (exportS3Fold em true bs).resourceCount⟩ := by
    unfold performStateExport at hExport
    rw [hloop] at hExport
    simp only [Except.ok.injEq, Prod.mk.injEq] at hExport
    exact hExport.1.symm
  have himp : importServiceState emFresh "s3"
      (ServiceState.s3 (exportS3Fold em true bs)) = (bs.length, 0) := by
    unfold importServiceState
    rw [if_pos (show toLowerCase "s3" = "s3" from rfl)]
    unfold importS3State
    rw [importS3Buckets_allOk emFresh hCreate]
    simp [ServiceState.bucketsOrEmpty, (exportS3Fold_spec em true bs).2]
  subst hsnap
  unfold performStateImport validateLocalStackConnectivity
  rw [hHealth]
  refine ⟨_, _, rfl, ?_, ?_⟩
  · simp [importLoop, himp]
  · simp [importLoop, himp]

/-- C9, witness: the round trip at a concrete emulator holding two buckets,
imported into an emulator accepting every create call. -/
theorem claimC9_witness :
    ∃ isum recs,
      performStateImport okEmu (.ok ⟨"1.0", "3.0.0", ["s3"],
        [("s3", ServiceState.s3
          ⟨[⟨"alpha", "2024-01-01", []⟩, ⟨"beta", "2024-01-02", []⟩], 2⟩)], 2⟩) =
        .ok (isum, recs) ∧
      isum.importedResources = 2 ∧ isum.skippedResources = 0 :=
  claimC9 okEmu okEmu [⟨"alpha", "2024-01-01"⟩, ⟨"beta", "2024-01-02"⟩]
    "3.0.0" _ _ rfl rfl (fun _ => rfl) rfl

end LocalstackMcp
